import Mathlib

/-!
Verification development for the SmartTask task-assignment web application.

The embedding models the durable store (users, tasks, comments, attachments,
notifications) together with a log of email-send attempts, and translates the
request handlers of `routes.py` and the AI-adapter functions of `utils.py`
into executable Lean functions.  Machine time is modelled by a `Nat` clock
value passed per request (`datetime.utcnow()`); the deadline parser
(`datetime.strptime` with the fixed `%Y-%m-%dT%H:%M` format) is an abstract
parameter `parse : String → Option Nat`, since its body is a C-library call.
Email transport success or failure is irrelevant to every caller (the return
value of `send_task_notification_email` is discarded and exceptions are
caught inside it), so the model records each call as one entry in an
attempt log.
-/

namespace SmartTask

/-- `models.py` `User`: identity, email, role ('admin' or 'client'). -/
structure User where
  id : Nat
  username : String
  email : String
  role : String
deriving Repr, DecidableEq

/-- `models.py` `Task`: the core work-item record. -/
structure Task where
  id : Nat
  title : String
  description : String
  service_type : String
  priority : String
  status : String
  deadline : Option Nat
  created_at : Nat
  updated_at : Nat
  client_id : Nat
  creator_id : Nat
deriving Repr, DecidableEq

/-- `models.py` `Comment`. -/
structure Comment where
  content : String
  created_at : Nat
  task_id : Nat
  user_id : Nat
deriving Repr, DecidableEq

/-- `models.py` `Attachment`. -/
structure Attachment where
  filename : String
  original_filename : String
  file_type : String
  uploaded_at : Nat
  task_id : Nat
  user_id : Nat
deriving Repr, DecidableEq

/-- `models.py` `Notification`. -/
structure Notification where
  title : String
  message : String
  is_read : Bool
  created_at : Nat
  user_id : Nat
  task_id : Option Nat
deriving Repr, DecidableEq

/-- One call to `send_task_notification_email(to, subject, body)` in
`utils.py`.  The call is logged as an attempt whether or not the underlying
transport succeeds: the function catches every exception and its boolean
result is ignored by every caller in `routes.py`. -/
structure EmailAttempt where
  recipient : String
  subject : String
  body : String
deriving Repr, DecidableEq

/-- The durable store plus the email-attempt log. -/
structure Store where
  users : List User
  tasks : List Task
  comments : List Comment
  attachments : List Attachment
  notifications : List Notification
  emails : List EmailAttempt
deriving Repr, DecidableEq

/-- `Task.query.get(task_id)` / `Task.query.get_or_404(task_id)`:
primary-key lookup. -/
def findTask : List Task → Nat → Option Task
  | [], _ => none
  | t :: ts, tid => if t.id = tid then some t else findTask ts tid

/-- `User.query.get(user_id)`: primary-key lookup. -/
def findUser : List User → Nat → Option User
  | [], _ => none
  | u :: us, uid => if u.id = uid then some u else findUser us uid

/-- Committing an in-place mutation of the ORM object with primary key
`tid`: every row with that key (unique in practice) becomes `t'`. -/
def updateTaskInList : List Task → Nat → Task → List Task
  | [], _, _ => []
  | t :: ts, tid, t' =>
      (if t.id = tid then t' else t) :: updateTaskInList ts tid t'

/-- The status vocabulary accepted by `update_task_status`
(`routes.py` line 435): `['pending', 'in-progress', 'completed']`. -/
def validStatus (st : String) : Prop :=
  st = "pending" ∨ st = "in-progress" ∨ st = "completed"

instance : DecidablePred validStatus := fun st => by
  unfold validStatus; infer_instance

/-- Responses of the `update_task_status` handler. -/
inductive StatusResponse where
  | notFound
  | notAuthorized
  | invalidStatus
  | ok (new_status : String)
deriving Repr, DecidableEq

/-- `routes.py` `update_task_status` (lines 421–475).  The route carries
`@login_required` and `@client_required`, so `current_user_id` is an
authenticated client.  `form_status` is `request.form.get('status')`
(`none` when the field is missing). -/
def update_task_status (s : Store) (current_user_id task_id : Nat)
    (form_status : Option String) (now : Nat) : Store × StatusResponse :=
  match findTask s.tasks task_id with
  | none => (s, .notFound)
  | some task =>
    if task.client_id = current_user_id then
      match form_status with
      | none => (s, .invalidStatus)
      | some new_status =>
        if validStatus new_status then
          if task.status = new_status then
            (s, .ok new_status)
          else
            let old_status := task.status
            let msg := "Task '" ++ task.title ++ "' status updated from "
                         ++ old_status ++ " to " ++ new_status
            let task' := { task with status := new_status, updated_at := now }
            let notif : Notification :=
              { title := "Task Status Updated", message := msg,
                is_read := false, created_at := now,
                user_id := task.creator_id, task_id := some task.id }
            let s1 : Store :=
              { s with tasks := updateTaskInList s.tasks task_id task',
                       notifications := s.notifications ++ [notif] }
            let s2 : Store :=
              match findUser s.users task.creator_id with
              | some admin =>
                  { s1 with emails := s1.emails ++
                      [⟨admin.email, "Task Status Updated", msg⟩] }
              | none => s1
            (s2, .ok new_status)
        else
          (s, .invalidStatus)
    else
      (s, .notAuthorized)

/-- Responses of the `new_task` handler. -/
inductive CreateResponse where
  | missingFields
  | invalidDeadline
  | created (task_id : Nat)
deriving Repr, DecidableEq

/-- `routes.py` `new_task` (lines 199–262), POST branch.  The route carries
`@login_required` and `@admin_required`, so `creator_id` is an authenticated
admin.  Form fields arrive as `request.form.get(...)`; `client_id = none`
covers a missing or empty (falsy) value, and `deadline_str = none` covers a
missing or empty deadline field (`if deadline_str:` skips parsing for both).
`parse` stands for `datetime.strptime(·, '%Y-%m-%dT%H:%M')`, `next_id` is
the primary key the store assigns at commit, `now` is `datetime.utcnow()`. -/
def new_task (s : Store) (creator_id : Nat)
    (title description service_type priority : String)
    (client_id : Option Nat) (deadline_str : Option String)
    (parse : String → Option Nat) (next_id now : Nat) :
    Store × CreateResponse :=
  if title = "" ∨ client_id = none then (s, .missingFields)
  else
    match client_id with
    | none => (s, .missingFields)
    | some cid =>
      let deadlineParsed : Option (Option Nat) :=
        match deadline_str with
        | none => some none
        | some ds =>
          match parse ds with
          | some d => some (some d)
          | none => none
      match deadlineParsed with
      | none => (s, .invalidDeadline)
      | some dl =>
        let task : Task :=
          { id := next_id, title := title, description := description,
            service_type := service_type, priority := priority,
            status := "pending", deadline := dl,
            created_at := now, updated_at := now,
            client_id := cid, creator_id := creator_id }
        let msg := "You have been assigned a new task: " ++ title
        let notif : Notification :=
          { title := "New Task Assigned", message := msg,
            is_read := false, created_at := now,
            user_id := cid, task_id := some next_id }
        let s1 : Store :=
          { s with tasks := s.tasks ++ [task],
                   notifications := s.notifications ++ [notif] }
        let s2 : Store :=
          match findUser s.users cid with
          | some client =>
              { s1 with emails := s1.emails ++
                  [⟨client.email, "New Task Assigned", msg⟩] }
          | none => s1
        (s2, .created next_id)

/-- Responses of the `edit_task` handler. -/
inductive EditResponse where
  | notFound
  | notAuthorized
  | invalidDeadline
  | ok
deriving Repr, DecidableEq

/-- `routes.py` `edit_task` (lines 265–316), POST branch.  The handler
assigns the submitted fields to the in-memory ORM object and only persists
them at `db.session.commit()`; on deadline parse failure it returns before
any commit, so the session rollback at request teardown discards every
in-memory assignment and the store is unchanged.  The `onupdate` default of
`Task.updated_at` (`models.py` line 49) bumps the timestamp at commit.
`deadline_str = none` covers a missing or empty deadline field. -/
def edit_task (s : Store) (current_user_id task_id : Nat)
    (title description service_type priority : String) (client_id : Nat)
    (deadline_str : Option String) (parse : String → Option Nat)
    (now : Nat) : Store × EditResponse :=
  match findTask s.tasks task_id with
  | none => (s, .notFound)
  | some task =>
    if task.creator_id = current_user_id then
      let deadlineParsed : Option (Option Nat) :=
        match deadline_str with
        | none => some task.deadline
        | some ds =>
          match parse ds with
          | some d => some (some d)
          | none => none
      match deadlineParsed with
      | none => (s, .invalidDeadline)
      | some dl =>
        let task' : Task :=
          { task with title := title, description := description,
                      service_type := service_type, priority := priority,
                      client_id := client_id, deadline := dl,
                      updated_at := now }
        let msg := "A task assigned to you has been updated: " ++ title
        let notif : Notification :=
          { title := "Task Updated", message := msg,
            is_read := false, created_at := now,
            user_id := client_id, task_id := some task.id }
        let s1 : Store :=
          { s with tasks := updateTaskInList s.tasks task_id task',
                   notifications := s.notifications ++ [notif] }
        let s2 : Store :=
          match findUser s.users client_id with
          | some client =>
              { s1 with emails := s1.emails ++
                  [⟨client.email, "Task Updated", msg⟩] }
          | none => s1
        (s2, .ok)
    else
      (s, .notAuthorized)

/-- Responses of the `add_comment` handler. -/
inductive CommentResponse where
  | notFound
  | notAuthorized
  | emptyContent
  | ok
deriving Repr, DecidableEq

/-- `routes.py` `add_comment` (lines 478–520).  Both the assigned client and
the creating admin may comment; the notification goes to the other party.
The handler never calls `send_task_notification_email`. -/
def add_comment (s : Store) (current_user_id task_id : Nat)
    (content : Option String) (now : Nat) : Store × CommentResponse :=
  match findTask s.tasks task_id with
  | none => (s, .notFound)
  | some task =>
    if current_user_id ≠ task.client_id ∧ current_user_id ≠ task.creator_id then
      (s, .notAuthorized)
    else
      match content with
      | none => (s, .emptyContent)
      | some c =>
        if c = "" then (s, .emptyContent)
        else
          let comment : Comment :=
            { content := c, created_at := now,
              task_id := task_id, user_id := current_user_id }
          let recip :=
            if current_user_id = task.creator_id then task.client_id
            else task.creator_id
          let notif : Notification :=
            { title := "New Comment",
              message := "New comment on task '" ++ task.title ++ "'",
              is_read := false, created_at := now,
              user_id := recip, task_id := some task.id }
          ({ s with comments := s.comments ++ [comment],
                    notifications := s.notifications ++ [notif] }, .ok)

/-- Responses of the `upload_attachment` handler. -/
inductive AttachResponse where
  | notFound
  | notAuthorized
  | noFilePart
  | noSelectedFile
  | ok
deriving Repr, DecidableEq

/-- The file part of a multipart upload: the browser-supplied filename and
declared content type. -/
structure FilePart where
  filename : String
  content_type : String
deriving Repr, DecidableEq

/-- `routes.py` `upload_attachment` (lines 523–592).  `file = none` models a
request without a `'file'` part; an empty filename models the empty part a
browser submits when no file was selected.  `unique_filename` stands for the
`uuid4().hex`-plus-extension name generated at line 558.  The handler never
calls `send_task_notification_email`. -/
def upload_attachment (s : Store) (current_user_id task_id : Nat)
    (file : Option FilePart) (unique_filename : String) (now : Nat) :
    Store × AttachResponse :=
  match findTask s.tasks task_id with
  | none => (s, .notFound)
  | some task =>
    if current_user_id ≠ task.client_id ∧ current_user_id ≠ task.creator_id then
      (s, .notAuthorized)
    else
      match file with
      | none => (s, .noFilePart)
      | some f =>
        if f.filename = "" then (s, .noSelectedFile)
        else
          let attachment : Attachment :=
            { filename := unique_filename,
              original_filename := f.filename,
              file_type := f.content_type,
              uploaded_at := now,
              task_id := task_id, user_id := current_user_id }
          let recip :=
            if current_user_id = task.creator_id then task.client_id
            else task.creator_id
          let notif : Notification :=
            { title := "New Attachment",
              message := "New file attached to task '" ++ task.title ++ "'",
              is_read := false, created_at := now,
              user_id := recip, task_id := some task.id }
          ({ s with attachments := s.attachments ++ [attachment],
                    notifications := s.notifications ++ [notif] }, .ok)

/-- Outcome of one chat-completion call made by the adapters in `utils.py`:
either the call raises, or it returns a message whose `content` may be
`None` or a string. -/
inductive AIBackend where
  | raised (e : String)
  | content (c : Option String)
deriving Repr, DecidableEq

/-- The priority vocabulary checked by `analyze_task_priority`
(`utils.py` line 196): `['low', 'medium', 'high']`. -/
def validPriority (p : String) : Prop :=
  p = "low" ∨ p = "medium" ∨ p = "high"

instance : DecidablePred validPriority := fun p => by
  unfold validPriority; infer_instance

/-- `utils.py` `analyze_task_priority` (lines 161–205).  The description and
optional day-count only shape the prompt; the returned value depends only on
the backend outcome, which is the `backend` argument here.  A non-`None`
response is stripped and lowercased, then validated against the three-token
set; everything else — no content, an unrecognised token, or a raised
exception — yields `'medium'`. -/
def analyze_task_priority (backend : AIBackend) : String :=
  match backend with
  | .raised _ => "medium"
  | .content none => "medium"
  | .content (some c) =>
    let suggested := c.trim.toLower
    if validPriority suggested then suggested else "medium"

/-- Outcome of the JSON-mode chat-completion call in
`generate_ai_task_description`: the call raises, returns `None` content,
returns content that `json.loads` rejects, or returns a parsed JSON object
(modelled as an association list of string fields). -/
inductive GenBackend where
  | raised (e : String)
  | noContent
  | unparsable
  | obj (fields : List (String × String))
deriving Repr, DecidableEq

/-- `'title' in result` / `result['title']` on the parsed JSON object. -/
def lookupField (o : List (String × String)) (k : String) : Option String :=
  match o with
  | [] => none
  | p :: ps => if p.1 = k then some p.2 else lookupField ps k

/-- The dict returned by `generate_ai_task_description`. -/
structure GenResult where
  title : String
  description : String
  success : Bool
  error : Option String
deriving Repr, DecidableEq

/-- `utils.py` `generate_ai_task_description` (lines 99–158).  The input
fields only shape the prompt; the returned dict depends only on the backend
outcome.  A raised call, `None` content, unparsable JSON, or a payload
missing `'title'` or `'description'` all land in the `except` branch, which
returns empty strings with `success=False` and an error message.  A payload
with both fields present returns them verbatim with `success=True` — the
code checks field presence only, never non-emptiness. -/
def generate_ai_task_description (backend : GenBackend) : GenResult :=
  match backend with
  | .raised e =>
      { title := "", description := "", success := false, error := some e }
  | .noContent =>
      { title := "", description := "", success := false,
        error := some "No content received from AI" }
  | .unparsable =>
      { title := "", description := "", success := false,
        error := some "JSON decode error" }
  | .obj o =>
    match lookupField o "title", lookupField o "description" with
    | some t, some d =>
        { title := t, description := d, success := true, error := none }
    | _, _ =>
        { title := "", description := "", success := false,
          error := some "AI response missing required fields" }

/-- The timestamp invariant of §8: every task's `updated_at` is at least its
`created_at`. -/
def taskTimesOK (s : Store) : Prop :=
  ∀ t ∈ s.tasks, t.created_at ≤ t.updated_at

/-- Clock soundness for one request: `datetime.utcnow()` never precedes any
stored task's creation time. -/
def clockAhead (s : Store) (now : Nat) : Prop :=
  ∀ t ∈ s.tasks, t.created_at ≤ now

instance (s : Store) : Decidable (taskTimesOK s) := by
  unfold taskTimesOK; infer_instance

instance (s : Store) (now : Nat) : Decidable (clockAhead s now) := by
  unfold clockAhead; infer_instance

/-- Concrete data for evaluating the model: an admin, two clients. -/
def adminA : User := ⟨1, "alice", "alice@example.com", "admin"⟩

def clientC : User := ⟨2, "carol", "carol@example.com", "client"⟩

def clientD : User := ⟨3, "dave", "dave@example.com", "client"⟩

/-- A task created by `adminA` (id 1) and assigned to `clientC` (id 2). -/
def taskT : Task :=
  ⟨10, "T", "a demo task", "IT", "medium", "pending", none, 5, 5, 2, 1⟩

/-- A concrete store holding the three users and `taskT`. -/
def exStore : Store := ⟨[adminA, clientC, clientD], [taskT], [], [], [], []⟩

theorem findTask_updateTaskInList (ts : List Task) (tid : Nat)
    (task t' : Task) (hfind : findTask ts tid = some task)
    (hid : t'.id = tid) :
    findTask (updateTaskInList ts tid t') tid = some t' := by
  induction ts with
  | nil => simp [findTask] at hfind
  | cons t ts ih =>
      by_cases h : t.id = tid
      · simp [findTask, updateTaskInList, h, hid]
      · simp [findTask, updateTaskInList, h] at hfind ⊢
        exact ih hfind

theorem findTask_id (ts : List Task) (tid : Nat) (task : Task)
    (h : findTask ts tid = some task) : task.id = tid := by
  induction ts with
  | nil => simp [findTask] at h
  | cons t ts ih =>
      by_cases ht : t.id = tid
      · simp [findTask, ht] at h
        rw [← h]; exact ht
      · simp [findTask, ht] at h
        exact ih h

theorem findTask_mem (ts : List Task) (tid : Nat) (task : Task)
    (h : findTask ts tid = some task) : task ∈ ts := by
  induction ts with
  | nil => simp [findTask] at h
  | cons t ts ih =>
      by_cases ht : t.id = tid
      · simp [findTask, ht] at h
        rw [← h]; exact List.mem_cons_self t ts
      · simp [findTask, ht] at h
        exact List.mem_cons_of_mem _ (ih h)

theorem mem_updateTaskInList (ts : List Task) (tid : Nat) (t' x : Task)
    (hx : x ∈ updateTaskInList ts tid t') : x = t' ∨ x ∈ ts := by
  induction ts with
  | nil => simp [updateTaskInList] at hx
  | cons t ts ih =>
      simp only [updateTaskInList, List.mem_cons] at hx
      rcases hx with hx | hx
      · by_cases h : t.id = tid
        · rw [if_pos h] at hx
          exact Or.inl hx
        · rw [if_neg h] at hx
          exact Or.inr (hx ▸ List.mem_cons_self t ts)
      · rcases ih hx with h | h
        · exact Or.inl h
        · exact Or.inr (List.mem_cons_of_mem _ h)

/-- Characterization of `update_task_status` on the change path: the task is
rewritten with the new status and timestamp, one notification is appended for
the creator, and one email attempt is appended for the creator's address. -/
theorem update_task_status_change (s : Store) (uid tid : Nat) (task : Task)
    (new_status : String) (now : Nat) (admin : User)
    (hfind : findTask s.tasks tid = some task)
    (hown : task.client_id = uid)
    (hvalid : validStatus new_status)
    (hdiff : task.status ≠ new_status)
    (hadmin : findUser s.users task.creator_id = some admin) :
    update_task_status s uid tid (some new_status) now =
      ({ s with
          tasks := updateTaskInList s.tasks tid
            { task with status := new_status, updated_at := now },
          notifications := s.notifications ++
            [{ title := "Task Status Updated",
               message := "Task '" ++ task.title ++ "' status updated from "
                 ++ task.status ++ " to " ++ new_status,
               is_read := false, created_at := now,
               user_id := task.creator_id, task_id := some task.id }],
          emails := s.emails ++
            [⟨admin.email, "Task Status Updated",
              "Task '" ++ task.title ++ "' status updated from "
                ++ task.status ++ " to " ++ new_status⟩] },
       .ok new_status) := by
  unfold update_task_status
  rw [hfind]
  simp [hown, hvalid, hdiff, hadmin]

/-- C1: a status-update request by the assigned client with a valid status
that differs from the current one updates the task's status and `updated_at`
in the store, appends exactly one Notification addressed to the task's
creator whose message carries both the old and the new status values, and
appends exactly one email-send attempt to the creator — the attempt is
logged whether or not the transport succeeds. -/
theorem status_change_updates_and_notifies_creator
    (s : Store) (uid tid : Nat) (task : Task) (new_status : String)
    (now : Nat) (admin : User)
    (hfind : findTask s.tasks tid = some task)
    (hown : task.client_id = uid)
    (hvalid : validStatus new_status)
    (hdiff : task.status ≠ new_status)
    (hadmin : findUser s.users task.creator_id = some admin) :
    (update_task_status s uid tid (some new_status) now).2 =
        .ok new_status ∧
    findTask (update_task_status s uid tid (some new_status) now).1.tasks
        tid = some { task with status := new_status, updated_at := now } ∧
    (update_task_status s uid tid (some new_status) now).1.notifications =
      s.notifications ++
        [{ title := "Task Status Updated",
           message := "Task '" ++ task.title ++ "' status updated from "
             ++ task.status ++ " to " ++ new_status,
           is_read := false, created_at := now,
           user_id := task.creator_id, task_id := some task.id }] ∧
    (update_task_status s uid tid (some new_status) now).1.emails =
      s.emails ++
        [⟨admin.email, "Task Status Updated",
          "Task '" ++ task.title ++ "' status updated from "
            ++ task.status ++ " to " ++ new_status⟩] := by
  rw [update_task_status_change s uid tid task new_status now admin hfind
        hown hvalid hdiff hadmin]
  exact ⟨rfl,
    findTask_updateTaskInList s.tasks tid task _ hfind
      (findTask_id s.tasks tid task hfind), rfl, rfl⟩

/-- Witness for C1 at the concrete store: client 2 moves task 10 from
`pending` to `in-progress` at time 9. -/
theorem status_change_updates_and_notifies_creator_witness :
    (update_task_status exStore 2 10 (some "in-progress") 9).2 =
        .ok "in-progress" ∧
    findTask (update_task_status exStore 2 10 (some "in-progress") 9).1.tasks
        10 = some { taskT with status := "in-progress", updated_at := 9 } ∧
    (update_task_status exStore 2 10 (some "in-progress") 9).1.notifications =
      exStore.notifications ++
        [{ title := "Task Status Updated",
           message := "Task '" ++ taskT.title ++ "' status updated from "
             ++ taskT.status ++ " to " ++ "in-progress",
           is_read := false, created_at := 9,
           user_id := taskT.creator_id, task_id := some taskT.id }] ∧
    (update_task_status exStore 2 10 (some "in-progress") 9).1.emails =
      exStore.emails ++
        [⟨adminA.email, "Task Status Updated",
          "Task '" ++ taskT.title ++ "' status updated from "
            ++ taskT.status ++ " to " ++ "in-progress"⟩] :=
  status_change_updates_and_notifies_creator exStore 2 10 taskT
    "in-progress" 9 adminA (by decide) (by decide)
    (Or.inr (Or.inl rfl)) (by decide) (by decide)

/-- C2: a status-update request by the assigned client whose requested valid
status equals the current status leaves the whole store unchanged — the task
record and its `updated_at`, the notifications, and the email log — and
returns the success response. -/
theorem status_update_same_value_is_noop
    (s : Store) (uid tid : Nat) (task : Task) (st : String) (now : Nat)
    (hfind : findTask s.tasks tid = some task)
    (hown : task.client_id = uid)
    (hvalid : validStatus st)
    (hsame : task.status = st) :
    update_task_status s uid tid (some st) now = (s, .ok st) := by
  unfold update_task_status
  rw [hfind]
  simp [hown, hvalid, hsame]

/-- Witness for C2: client 2 re-submits `pending` for task 10. -/
theorem status_update_same_value_is_noop_witness :
    update_task_status exStore 2 10 (some "pending") 9 =
      (exStore, .ok "pending") :=
  status_update_same_value_is_noop exStore 2 10 taskT "pending" 9
    (by decide) (by decide) (Or.inl rfl) (by decide)

/-- C3: a status-update request by an authenticated client who is not the
task's assignee is rejected with the authorization failure and the store is
left entirely unchanged, whatever the submitted status field holds. -/
theorem status_update_wrong_client_rejected
    (s : Store) (uid tid : Nat) (task : Task) (form : Option String)
    (now : Nat)
    (hfind : findTask s.tasks tid = some task)
    (hnot : task.client_id ≠ uid) :
    update_task_status s uid tid form now = (s, .notAuthorized) := by
  unfold update_task_status
  rw [hfind]
  simp [hnot]

/-- Witness for C3: client 3 tries to complete task 10, which is assigned
to client 2. -/
theorem status_update_wrong_client_rejected_witness :
    update_task_status exStore 3 10 (some "completed") 9 =
      (exStore, .notAuthorized) :=
  status_update_wrong_client_rejected exStore 3 10 taskT
    (some "completed") 9 (by decide) (by decide)

/-- C10: a status-update request by the assignee whose status field is
missing or holds a token outside `{pending, in-progress, completed}` is
rejected with the invalid-status failure and the store is left entirely
unchanged. -/
theorem status_update_invalid_value_rejected
    (s : Store) (uid tid : Nat) (task : Task) (form : Option String)
    (now : Nat)
    (hfind : findTask s.tasks tid = some task)
    (hown : task.client_id = uid)
    (hbad : ∀ st, form = some st → ¬ validStatus st) :
    update_task_status s uid tid form now = (s, .invalidStatus) := by
  unfold update_task_status
  rw [hfind]
  cases form with
  | none => simp [hown]
  | some st => simp [hown, hbad st rfl]

/-- Witness for C10: client 2 submits the token `done` for task 10. -/
theorem status_update_invalid_value_rejected_witness :
    update_task_status exStore 2 10 (some "done") 9 =
      (exStore, .invalidStatus) :=
  status_update_invalid_value_rejected exStore 2 10 taskT (some "done") 9
    (by decide) (by decide) (by intro st hst; cases hst; decide)

/-- C5: a task-edit submission by the task's creator whose deadline text
fails to parse in the fixed `%Y-%m-%dT%H:%M` format is rejected before the
commit: the store — the stored task with all its fields, the notifications,
and the email log — is exactly the pre-request store. -/
theorem edit_task_bad_deadline_rejected
    (s : Store) (uid tid : Nat) (task : Task)
    (title descr stype prio : String) (cid : Nat) (ds : String)
    (parse : String → Option Nat) (now : Nat)
    (hfind : findTask s.tasks tid = some task)
    (hown : task.creator_id = uid)
    (hparse : parse ds = none) :
    edit_task s uid tid title descr stype prio cid (some ds) parse now =
      (s, .invalidDeadline) := by
  unfold edit_task
  rw [hfind]
  simp [hown, hparse]

/-- Witness for C5: admin 1 edits task 10 with a deadline string the parser
rejects (concrete parser: rejects everything). -/
theorem edit_task_bad_deadline_rejected_witness :
    edit_task exStore 1 10 "T2" "d2" "Legal" "high" 3
      (some "not-a-date") (fun _ => none) 9 =
      (exStore, .invalidDeadline) :=
  edit_task_bad_deadline_rejected exStore 1 10 taskT "T2" "d2" "Legal"
    "high" 3 "not-a-date" (fun _ => none) 9 (by decide) (by decide) rfl

/-- Characterization of `new_task` on the success path: the task is stored
with status `pending` and equal timestamps, one notification and one email
attempt go to the assignee. -/
theorem new_task_commit
    (s : Store) (creator_id : Nat)
    (title descr stype prio : String) (cid : Nat)
    (ds : Option String) (parse : String → Option Nat)
    (next_id now : Nat) (client : User)
    (htitle : title ≠ "")
    (hdl : ds = none ∨ ∃ d v, ds = some d ∧ parse d = some v)
    (hclient : findUser s.users cid = some client) :
    ∃ dl, new_task s creator_id title descr stype prio (some cid) ds parse
        next_id now =
      (⟨s.users,
        s.tasks ++
          [⟨next_id, title, descr, stype, prio, "pending", dl, now, now,
            cid, creator_id⟩],
        s.comments, s.attachments,
        s.notifications ++
          [⟨"New Task Assigned",
            "You have been assigned a new task: " ++ title,
            false, now, cid, some next_id⟩],
        s.emails ++
          [⟨client.email, "New Task Assigned",
            "You have been assigned a new task: " ++ title⟩]⟩,
       .created next_id) := by
  rcases hdl with hds | ⟨d, v, hds, hparse⟩
  · refine ⟨none, ?_⟩
    subst hds
    unfold new_task
    simp [htitle, hclient]
  · refine ⟨some v, ?_⟩
    subst hds
    unfold new_task
    simp [htitle, hclient, hparse]

/-- C8: a task creation with a non-empty title, an assignee identity that
resolves to a stored user, and a deadline that is absent or parses, stores
the new task with status forced to `pending` and both timestamps set to the
request time, appends exactly one Notification addressed to the new
assignee, and appends exactly one email-send attempt to that assignee's
address. -/
theorem new_task_success_pending_and_notifies_assignee
    (s : Store) (creator_id : Nat)
    (title descr stype prio : String) (cid : Nat)
    (ds : Option String) (parse : String → Option Nat)
    (next_id now : Nat) (client : User)
    (htitle : title ≠ "")
    (hdl : ds = none ∨ ∃ d v, ds = some d ∧ parse d = some v)
    (hclient : findUser s.users cid = some client) :
    ∃ dl, new_task s creator_id title descr stype prio (some cid) ds parse
        next_id now =
      (⟨s.users,
        s.tasks ++
          [⟨next_id, title, descr, stype, prio, "pending", dl, now, now,
            cid, creator_id⟩],
        s.comments, s.attachments,
        s.notifications ++
          [⟨"New Task Assigned",
            "You have been assigned a new task: " ++ title,
            false, now, cid, some next_id⟩],
        s.emails ++
          [⟨client.email, "New Task Assigned",
            "You have been assigned a new task: " ++ title⟩]⟩,
       .created next_id) :=
  new_task_commit s creator_id title descr stype prio cid ds parse
    next_id now client htitle hdl hclient

/-- Witness for C8: admin 1 creates a task for client 3 with no deadline. -/
theorem new_task_success_pending_and_notifies_assignee_witness :
    ∃ dl, new_task exStore 1 "T3" "d3" "IT" "low" (some 3) none
        (fun _ => none) 11 9 =
      (⟨exStore.users,
        exStore.tasks ++
          [⟨11, "T3", "d3", "IT", "low", "pending", dl, 9, 9, 3, 1⟩],
        exStore.comments, exStore.attachments,
        exStore.notifications ++
          [⟨"New Task Assigned",
            "You have been assigned a new task: " ++ "T3",
            false, 9, 3, some 11⟩],
        exStore.emails ++
          [⟨clientD.email, "New Task Assigned",
            "You have been assigned a new task: " ++ "T3"⟩]⟩,
       .created 11) :=
  new_task_success_pending_and_notifies_assignee exStore 1 "T3" "d3" "IT"
    "low" 3 none (fun _ => none) 11 9 clientD (by decide) (Or.inl rfl)
    (by decide)

/-- C6: `analyze_task_priority` always returns one of the three priority
tokens and never raises; moreover every backend outcome falls in one of
four exhaustive cases — a raised exception resolves to `medium`, absent
content resolves to `medium`, content that does not normalize (trim,
lowercase) to one of the three tokens resolves to `medium`, and content
that does normalize to one of the three tokens is returned normalized. -/
theorem analyze_task_priority_total (backend : AIBackend) :
    validPriority (analyze_task_priority backend) ∧
    ((∃ e, backend = .raised e ∧
        analyze_task_priority backend = "medium") ∨
     (backend = .content none ∧
        analyze_task_priority backend = "medium") ∨
     (∃ c, backend = .content (some c) ∧
        ¬ validPriority c.trim.toLower ∧
        analyze_task_priority backend = "medium") ∨
     (∃ c, backend = .content (some c) ∧ validPriority c.trim.toLower ∧
        analyze_task_priority backend = c.trim.toLower)) := by
  cases backend with
  | raised e => exact ⟨Or.inr (Or.inl rfl), Or.inl ⟨e, rfl, rfl⟩⟩
  | content c =>
      cases c with
      | none =>
          exact ⟨Or.inr (Or.inl rfl), Or.inr (Or.inl ⟨rfl, rfl⟩)⟩
      | some str =>
          by_cases h : validPriority str.trim.toLower
          · refine ⟨?_, Or.inr (Or.inr (Or.inr ⟨str, rfl, h, ?_⟩))⟩
            · unfold analyze_task_priority
              simp only [if_pos h]
              exact h
            · unfold analyze_task_priority
              simp only [if_pos h]
          · refine ⟨?_, Or.inr (Or.inr (Or.inl ⟨str, rfl, h, ?_⟩))⟩
            · unfold analyze_task_priority
              simp only [if_neg h]
              exact Or.inr (Or.inl rfl)
            · unfold analyze_task_priority
              simp only [if_neg h]

/-- C7 counterexample: a backend payload carrying both required fields as
empty strings is accepted — `generate_ai_task_description` returns
`success = true` together with an empty title and an empty description,
because the code checks only field presence, never non-emptiness. -/
theorem generate_description_empty_fields_accepted :
    (generate_ai_task_description
        (.obj [("title", ""), ("description", "")])).success = true ∧
    (generate_ai_task_description
        (.obj [("title", ""), ("description", "")])).title = "" ∧
    (generate_ai_task_description
        (.obj [("title", ""), ("description", "")])).description = "" :=
  ⟨rfl, rfl, rfl⟩

/-- C7 amended: `generate_ai_task_description` returns `success = true`
exactly when the backend payload is a parsed object carrying both the
`title` and `description` fields, whose values are passed through verbatim
— they may be empty strings; in every other case (backend error, absent
content, unparsable content, missing field) it returns `success = false`
with a diagnostic message and empty title and description. -/
theorem generate_description_success_iff_fields_present
    (backend : GenBackend) :
    ((generate_ai_task_description backend).success = true ∧
      ∃ o, backend = .obj o ∧
        lookupField o "title" =
          some (generate_ai_task_description backend).title ∧
        lookupField o "description" =
          some (generate_ai_task_description backend).description) ∨
    ((generate_ai_task_description backend).success = false ∧
      (generate_ai_task_description backend).error.isSome = true ∧
      (generate_ai_task_description backend).title = "" ∧
      (generate_ai_task_description backend).description = "") := by
  cases backend with
  | raised e => exact Or.inr ⟨rfl, rfl, rfl, rfl⟩
  | noContent => exact Or.inr ⟨rfl, rfl, rfl, rfl⟩
  | unparsable => exact Or.inr ⟨rfl, rfl, rfl, rfl⟩
  | obj o =>
      simp only [generate_ai_task_description]
      cases ht : lookupField o "title" with
      | none => simp [ht]
      | some t =>
          cases hd : lookupField o "description" with
          | none => simp [ht, hd]
          | some d =>
              exact Or.inl ⟨rfl, o, rfl, ht, hd⟩

/-- Characterization of `edit_task` on the commit path, for any deadline
text that is absent or parses: all submitted fields are persisted,
`updated_at` is bumped, one notification and one email attempt go to the
(possibly newly assigned) client. -/
theorem edit_task_commit (s : Store) (uid tid : Nat) (task : Task)
    (title descr stype prio : String) (cid : Nat)
    (ds : Option String) (parse : String → Option Nat) (now : Nat)
    (client : User)
    (hfind : findTask s.tasks tid = some task)
    (hown : task.creator_id = uid)
    (hclient : findUser s.users cid = some client)
    (hdl : ds = none ∨ ∃ d v, ds = some d ∧ parse d = some v) :
    ∃ dl, edit_task s uid tid title descr stype prio cid ds parse now =
      ({ s with
          tasks := updateTaskInList s.tasks tid
            { task with title := title, description := descr,
                        service_type := stype, priority := prio,
                        client_id := cid, deadline := dl,
                        updated_at := now },
          notifications := s.notifications ++
            [⟨"Task Updated",
              "A task assigned to you has been updated: " ++ title,
              false, now, cid, some task.id⟩],
          emails := s.emails ++
            [⟨client.email, "Task Updated",
              "A task assigned to you has been updated: " ++ title⟩] },
       .ok) := by
  rcases hdl with hds | ⟨d, v, hds, hparse⟩
  · refine ⟨task.deadline, ?_⟩
    subst hds
    unfold edit_task
    rw [hfind]
    simp [hown, hclient]
  · refine ⟨some v, ?_⟩
    subst hds
    unfold edit_task
    rw [hfind]
    simp [hown, hclient, hparse]

/-- Characterization of `add_comment` on the success path: one comment row
and one notification to the other party are appended; the email log is
untouched (the handler never calls the email sender). -/
theorem add_comment_ok (s : Store) (uid tid : Nat) (task : Task)
    (c : String) (now : Nat)
    (hfind : findTask s.tasks tid = some task)
    (hauth : uid = task.client_id ∨ uid = task.creator_id)
    (hc : c ≠ "") :
    add_comment s uid tid (some c) now =
      ({ s with
          comments := s.comments ++ [⟨c, now, tid, uid⟩],
          notifications := s.notifications ++
            [⟨"New Comment",
              "New comment on task '" ++ task.title ++ "'",
              false, now,
              if uid = task.creator_id then task.client_id
              else task.creator_id,
              some task.id⟩] }, .ok) := by
  have hcond : ¬(uid ≠ task.client_id ∧ uid ≠ task.creator_id) := by
    tauto
  unfold add_comment
  rw [hfind]
  simp only [if_neg hcond, hc]
  simp [hc]

/-- Characterization of `upload_attachment` on the success path: one
attachment row and one notification to the other party are appended; the
email log is untouched (the handler never calls the email sender). -/
theorem upload_attachment_ok (s : Store) (uid tid : Nat) (task : Task)
    (f : FilePart) (ufn : String) (now : Nat)
    (hfind : findTask s.tasks tid = some task)
    (hauth : uid = task.client_id ∨ uid = task.creator_id)
    (hf : f.filename ≠ "") :
    upload_attachment s uid tid (some f) ufn now =
      ({ s with
          attachments := s.attachments ++
            [⟨ufn, f.filename, f.content_type, now, tid, uid⟩],
          notifications := s.notifications ++
            [⟨"New Attachment",
              "New file attached to task '" ++ task.title ++ "'",
              false, now,
              if uid = task.creator_id then task.client_id
              else task.creator_id,
              some task.id⟩] }, .ok) := by
  have hcond : ¬(uid ≠ task.client_id ∧ uid ≠ task.creator_id) := by
    tauto
  unfold upload_attachment
  rw [hfind]
  simp only [if_neg hcond, hf]
  simp [hf]

/-- C4 counterexample: the tracked event "comment added" emits an in-app
Notification but makes no email-send attempt — client 2 comments on task 10,
a notification is appended, and the email log is unchanged, so not every
tracked event produces both a Notification and an email side-effect. -/
theorem comment_event_makes_no_email_attempt :
    (add_comment exStore 2 10 (some "hello") 7).2 = .ok ∧
    (add_comment exStore 2 10 (some "hello") 7).1.notifications.length =
      exStore.notifications.length + 1 ∧
    (add_comment exStore 2 10 (some "hello") 7).1.emails =
      exStore.emails := by
  refine ⟨rfl, rfl, rfl⟩

/-- C4 amended: task created, task updated (full edit), and status changed
each emit exactly one Notification and exactly one email-send attempt to
the relevant counterparty; comment added and attachment added each emit
exactly one Notification to the counterparty but make no email-send
attempt. -/
theorem tracked_events_notification_emission
    (s : Store) (now : Nat)
    (creator_id cidN next_id : Nat) (titleN descrN stypeN prioN : String)
    (dsN : Option String) (parseN : String → Option Nat) (clientN : User)
    (uidE tidE cidE : Nat) (taskE : Task)
    (titleE descrE stypeE prioE : String) (dsE : Option String)
    (parseE : String → Option Nat) (clientE : User)
    (uidS tidS : Nat) (taskS : Task) (stS : String) (adminS : User)
    (uidC tidC : Nat) (taskC : Task) (c : String)
    (uidA tidA : Nat) (taskA : Task) (f : FilePart) (ufn : String)
    (htitleN : titleN ≠ "")
    (hdlN : dsN = none ∨ ∃ d v, dsN = some d ∧ parseN d = some v)
    (hclientN : findUser s.users cidN = some clientN)
    (hfindE : findTask s.tasks tidE = some taskE)
    (hownE : taskE.creator_id = uidE)
    (hclientE : findUser s.users cidE = some clientE)
    (hdlE : dsE = none ∨ ∃ d v, dsE = some d ∧ parseE d = some v)
    (hfindS : findTask s.tasks tidS = some taskS)
    (hownS : taskS.client_id = uidS)
    (hvalidS : validStatus stS)
    (hdiffS : taskS.status ≠ stS)
    (hadminS : findUser s.users taskS.creator_id = some adminS)
    (hfindC : findTask s.tasks tidC = some taskC)
    (hauthC : uidC = taskC.client_id ∨ uidC = taskC.creator_id)
    (hc : c ≠ "")
    (hfindA : findTask s.tasks tidA = some taskA)
    (hauthA : uidA = taskA.client_id ∨ uidA = taskA.creator_id)
    (hf : f.filename ≠ "") :
    ((new_task s creator_id titleN descrN stypeN prioN (some cidN) dsN
          parseN next_id now).1.notifications =
        s.notifications ++
          [⟨"New Task Assigned",
            "You have been assigned a new task: " ++ titleN,
            false, now, cidN, some next_id⟩] ∧
      (new_task s creator_id titleN descrN stypeN prioN (some cidN) dsN
          parseN next_id now).1.emails =
        s.emails ++
          [⟨clientN.email, "New Task Assigned",
            "You have been assigned a new task: " ++ titleN⟩]) ∧
    ((edit_task s uidE tidE titleE descrE stypeE prioE cidE dsE parseE
          now).1.notifications =
        s.notifications ++
          [⟨"Task Updated",
            "A task assigned to you has been updated: " ++ titleE,
            false, now, cidE, some taskE.id⟩] ∧
      (edit_task s uidE tidE titleE descrE stypeE prioE cidE dsE parseE
          now).1.emails =
        s.emails ++
          [⟨clientE.email, "Task Updated",
            "A task assigned to you has been updated: " ++ titleE⟩]) ∧
    ((update_task_status s uidS tidS (some stS) now).1.notifications =
        s.notifications ++
          [⟨"Task Status Updated",
            "Task '" ++ taskS.title ++ "' status updated from "
              ++ taskS.status ++ " to " ++ stS,
            false, now, taskS.creator_id, some taskS.id⟩] ∧
      (update_task_status s uidS tidS (some stS) now).1.emails =
        s.emails ++
          [⟨adminS.email, "Task Status Updated",
            "Task '" ++ taskS.title ++ "' status updated from "
              ++ taskS.status ++ " to " ++ stS⟩]) ∧
    ((add_comment s uidC tidC (some c) now).1.notifications =
        s.notifications ++
          [⟨"New Comment",
            "New comment on task '" ++ taskC.title ++ "'",
            false, now,
            if uidC = taskC.creator_id then taskC.client_id
            else taskC.creator_id,
            some taskC.id⟩] ∧
      (add_comment s uidC tidC (some c) now).1.emails = s.emails) ∧
    ((upload_attachment s uidA tidA (some f) ufn now).1.notifications =
        s.notifications ++
          [⟨"New Attachment",
            "New file attached to task '" ++ taskA.title ++ "'",
            false, now,
            if uidA = taskA.creator_id then taskA.client_id
            else taskA.creator_id,
            some taskA.id⟩] ∧
      (upload_attachment s uidA tidA (some f) ufn now).1.emails =
        s.emails) := by
  refine ⟨?_, ?_, ?_, ?_, ?_⟩
  · rcases new_task_commit s creator_id titleN descrN stypeN prioN cidN
        dsN parseN next_id now clientN htitleN hdlN hclientN with ⟨dl, h⟩
    rw [h]
    exact ⟨rfl, rfl⟩
  · rcases edit_task_commit s uidE tidE taskE titleE descrE stypeE prioE
        cidE dsE parseE now clientE hfindE hownE hclientE hdlE with ⟨dl, h⟩
    rw [h]
    exact ⟨rfl, rfl⟩
  · rw [update_task_status_change s uidS tidS taskS stS now adminS
        hfindS hownS hvalidS hdiffS hadminS]
    exact ⟨rfl, rfl⟩
  · rw [add_comment_ok s uidC tidC taskC c now hfindC hauthC hc]
    exact ⟨rfl, rfl⟩
  · rw [upload_attachment_ok s uidA tidA taskA f ufn now hfindA hauthA hf]
    exact ⟨rfl, rfl⟩

/-- Witness for the amended C4: all five tracked events run against the
concrete store — admin 1 creates a task for client 3, edits task 10 over to
client 3, client 2 moves task 10 to `completed`, client 2 comments, and
admin 1 uploads a file. -/
theorem tracked_events_notification_emission_witness :
    ((new_task exStore 1 "N" "nd" "IT" "low" (some 3) none
          (fun _ => none) 11 9).1.notifications =
        exStore.notifications ++
          [⟨"New Task Assigned",
            "You have been assigned a new task: " ++ "N",
            false, 9, 3, some 11⟩] ∧
      (new_task exStore 1 "N" "nd" "IT" "low" (some 3) none
          (fun _ => none) 11 9).1.emails =
        exStore.emails ++
          [⟨clientD.email, "New Task Assigned",
            "You have been assigned a new task: " ++ "N"⟩]) ∧
    ((edit_task exStore 1 10 "E" "ed" "Legal" "high" 3
          (some "2031-01-01T10:00") (fun _ => some 100) 9).1.notifications =
        exStore.notifications ++
          [⟨"Task Updated",
            "A task assigned to you has been updated: " ++ "E",
            false, 9, 3, some taskT.id⟩] ∧
      (edit_task exStore 1 10 "E" "ed" "Legal" "high" 3
          (some "2031-01-01T10:00") (fun _ => some 100) 9).1.emails =
        exStore.emails ++
          [⟨clientD.email, "Task Updated",
            "A task assigned to you has been updated: " ++ "E"⟩]) ∧
    ((update_task_status exStore 2 10 (some "completed") 9).1.notifications =
        exStore.notifications ++
          [⟨"Task Status Updated",
            "Task '" ++ taskT.title ++ "' status updated from "
              ++ taskT.status ++ " to " ++ "completed",
            false, 9, taskT.creator_id, some taskT.id⟩] ∧
      (update_task_status exStore 2 10 (some "completed") 9).1.emails =
        exStore.emails ++
          [⟨adminA.email, "Task Status Updated",
            "Task '" ++ taskT.title ++ "' status updated from "
              ++ taskT.status ++ " to " ++ "completed"⟩]) ∧
    ((add_comment exStore 2 10 (some "hi") 9).1.notifications =
        exStore.notifications ++
          [⟨"New Comment",
            "New comment on task '" ++ taskT.title ++ "'",
            false, 9,
            if 2 = taskT.creator_id then taskT.client_id
            else taskT.creator_id,
            some taskT.id⟩] ∧
      (add_comment exStore 2 10 (some "hi") 9).1.emails =
        exStore.emails) ∧
    ((upload_attachment exStore 1 10 (some ⟨"a.txt", "text/plain"⟩)
          "u.txt" 9).1.notifications =
        exStore.notifications ++
          [⟨"New Attachment",
            "New file attached to task '" ++ taskT.title ++ "'",
            false, 9,
            if 1 = taskT.creator_id then taskT.client_id
            else taskT.creator_id,
            some taskT.id⟩] ∧
      (upload_attachment exStore 1 10 (some ⟨"a.txt", "text/plain"⟩)
          "u.txt" 9).1.emails = exStore.emails) :=
  tracked_events_notification_emission exStore 9
    1 3 11 "N" "nd" "IT" "low" none (fun _ => none) clientD
    1 10 3 taskT "E" "ed" "Legal" "high" (some "2031-01-01T10:00")
    (fun _ => some 100) clientD
    2 10 taskT "completed" adminA
    2 10 taskT "hi"
    1 10 taskT ⟨"a.txt", "text/plain"⟩ "u.txt"
    (by decide) (Or.inl rfl) (by decide)
    (by decide) (by decide) (by decide)
    (Or.inr ⟨"2031-01-01T10:00", 100, rfl, rfl⟩)
    (by decide) (by decide) (Or.inr (Or.inr rfl)) (by decide) (by decide)
    (by decide) (Or.inl (by decide)) (by decide)
    (by decide) (Or.inr (by decide)) (by decide)

/-- The tasks list after `update_task_status` is either untouched or the
found task rewritten with a new status and `updated_at := now`. -/
theorem update_task_status_tasks (s : Store) (uid tid : Nat)
    (fs : Option String) (now : Nat) :
    (update_task_status s uid tid fs now).1.tasks = s.tasks ∨
    ∃ task st, findTask s.tasks tid = some task ∧
      (update_task_status s uid tid fs now).1.tasks =
        updateTaskInList s.tasks tid
          { task with status := st, updated_at := now } := by
  unfold update_task_status
  cases hf : findTask s.tasks tid with
  | none => exact Or.inl rfl
  | some task =>
      by_cases hc : task.client_id = uid
      · cases fs with
        | none => simp [hc]
        | some st =>
            by_cases hv : validStatus st
            · by_cases hs : task.status = st
              · simp [hc, hv, hs]
              · refine Or.inr ⟨task, st, rfl, ?_⟩
                cases ha : findUser s.users task.creator_id with
                | none => simp [hc, hv, hs, ha]
                | some admin => simp [hc, hv, hs, ha]
            · simp [hc, hv]
      · simp [hc]

/-- The tasks list after `edit_task` is either untouched or the found task
rewritten with the submitted fields and `updated_at := now`, keeping its
`created_at`. -/
theorem edit_task_tasks (s : Store) (uid tid : Nat)
    (title descr stype prio : String) (cid : Nat)
    (ds : Option String) (parse : String → Option Nat) (now : Nat) :
    (edit_task s uid tid title descr stype prio cid ds parse now).1.tasks =
        s.tasks ∨
    ∃ task t', findTask s.tasks tid = some task ∧
      t'.created_at = task.created_at ∧ t'.updated_at = now ∧
      (edit_task s uid tid title descr stype prio cid ds parse now).1.tasks =
        updateTaskInList s.tasks tid t' := by
  unfold edit_task
  cases hf : findTask s.tasks tid with
  | none => exact Or.inl rfl
  | some task =>
      by_cases hown : task.creator_id = uid
      · cases ds with
        | none =>
            refine Or.inr ⟨task,
              { task with title := title, description := descr,
                          service_type := stype, priority := prio,
                          client_id := cid, deadline := task.deadline,
                          updated_at := now }, rfl, rfl, rfl, ?_⟩
            cases ha : findUser s.users cid with
            | none => simp [hown, ha]
            | some client => simp [hown, ha]
        | some d =>
            cases hp : parse d with
            | none => simp [hown, hp]
            | some v =>
                refine Or.inr ⟨task,
                  { task with title := title, description := descr,
                              service_type := stype, priority := prio,
                              client_id := cid, deadline := some v,
                              updated_at := now }, rfl, rfl, rfl, ?_⟩
                cases ha : findUser s.users cid with
                | none => simp [hown, hp, ha]
                | some client => simp [hown, hp, ha]
      · simp [hown]

/-- The tasks list after `new_task` is either untouched or extended by one
task whose two timestamps both equal `now`. -/
theorem new_task_tasks (s : Store) (uid : Nat)
    (title descr stype prio : String) (cido : Option Nat)
    (ds : Option String) (parse : String → Option Nat)
    (next_id now : Nat) :
    (new_task s uid title descr stype prio cido ds parse next_id
        now).1.tasks = s.tasks ∨
    ∃ cid dl,
      (new_task s uid title descr stype prio cido ds parse next_id
          now).1.tasks =
        s.tasks ++
          [⟨next_id, title, descr, stype, prio, "pending", dl, now, now,
            cid, uid⟩] := by
  unfold new_task
  by_cases htitle : title = ""
  · simp [htitle]
  · cases cido with
    | none => simp [htitle]
    | some cid =>
        cases ds with
        | none =>
            refine Or.inr ⟨cid, none, ?_⟩
            cases ha : findUser s.users cid with
            | none => simp [htitle, ha]
            | some client => simp [htitle, ha]
        | some d =>
            cases hp : parse d with
            | none => simp [htitle, hp]
            | some v =>
                refine Or.inr ⟨cid, some v, ?_⟩
                cases ha : findUser s.users cid with
                | none => simp [htitle, hp, ha]
                | some client => simp [htitle, hp, ha]

/-- C9: the timestamp invariant `created_at ≤ updated_at` holds for every
task after any of the task-mutating operations, provided it held before and
the request clock is not behind any stored creation time; a task created by
`new_task` gets both timestamps set to the same request time, and neither
`update_task_status` nor `edit_task` ever changes a task's `created_at`. -/
theorem task_timestamps_invariant
    (s : Store) (now : Nat) (uid tid next_id cid : Nat)
    (fs : Option String) (title descr stype prio : String)
    (cido : Option Nat) (ds : Option String)
    (parse : String → Option Nat)
    (hinv : taskTimesOK s) (hclock : clockAhead s now) :
    taskTimesOK (update_task_status s uid tid fs now).1 ∧
    taskTimesOK (edit_task s uid tid title descr stype prio cid ds parse
        now).1 ∧
    taskTimesOK (new_task s uid title descr stype prio cido ds parse
        next_id now).1 ∧
    (∀ x ∈ (new_task s uid title descr stype prio cido ds parse next_id
        now).1.tasks,
      x ∈ s.tasks ∨ (x.created_at = now ∧ x.updated_at = now)) ∧
    (∀ x ∈ (update_task_status s uid tid fs now).1.tasks,
      ∃ t0 ∈ s.tasks, x.created_at = t0.created_at) ∧
    (∀ x ∈ (edit_task s uid tid title descr stype prio cid ds parse
        now).1.tasks,
      ∃ t0 ∈ s.tasks, x.created_at = t0.created_at) := by
  have hupd := update_task_status_tasks s uid tid fs now
  have hedit := edit_task_tasks s uid tid title descr stype prio cid ds
    parse now
  have hnew := new_task_tasks s uid title descr stype prio cido ds parse
    next_id now
  have memUpd : ∀ x ∈ (update_task_status s uid tid fs now).1.tasks,
      x ∈ s.tasks ∨ ∃ task, findTask s.tasks tid = some task ∧
        x.created_at = task.created_at ∧ x.updated_at = now := by
    intro x hx
    rcases hupd with h | ⟨task, st, hf, h⟩
    · exact Or.inl (h ▸ hx)
    · rw [h] at hx
      rcases mem_updateTaskInList s.tasks tid _ x hx with hx' | hx'
      · exact Or.inr ⟨task, hf, by rw [hx'], by rw [hx']⟩
      · exact Or.inl hx'
  have memEdit : ∀ x ∈ (edit_task s uid tid title descr stype prio cid ds
      parse now).1.tasks,
      x ∈ s.tasks ∨ ∃ task, findTask s.tasks tid = some task ∧
        x.created_at = task.created_at ∧ x.updated_at = now := by
    intro x hx
    rcases hedit with h | ⟨task, t', hf, hcr, hup, h⟩
    · exact Or.inl (h ▸ hx)
    · rw [h] at hx
      rcases mem_updateTaskInList s.tasks tid _ x hx with hx' | hx'
      · exact Or.inr ⟨task, hf, by rw [hx', hcr], by rw [hx', hup]⟩
      · exact Or.inl hx'
  have memNew : ∀ x ∈ (new_task s uid title descr stype prio cido ds parse
      next_id now).1.tasks,
      x ∈ s.tasks ∨ (x.created_at = now ∧ x.updated_at = now) := by
    intro x hx
    rcases hnew with h | ⟨c, dl, h⟩
    · exact Or.inl (h ▸ hx)
    · rw [h, List.mem_append] at hx
      rcases hx with hx' | hx'
      · exact Or.inl hx'
      · simp only [List.mem_singleton] at hx'
        exact Or.inr ⟨by rw [hx'], by rw [hx']⟩
  refine ⟨?_, ?_, ?_, memNew, ?_, ?_⟩
  · intro x hx
    rcases memUpd x hx with h | ⟨task, hf, hcr, hup⟩
    · exact hinv x h
    · rw [hcr, hup]
      exact hclock task (findTask_mem s.tasks tid task hf)
  · intro x hx
    rcases memEdit x hx with h | ⟨task, hf, hcr, hup⟩
    · exact hinv x h
    · rw [hcr, hup]
      exact hclock task (findTask_mem s.tasks tid task hf)
  · intro x hx
    rcases memNew x hx with h | ⟨hcr, hup⟩
    · exact hinv x h
    · rw [hcr, hup]
  · intro x hx
    rcases memUpd x hx with h | ⟨task, hf, hcr, _⟩
    · exact ⟨x, h, rfl⟩
    · exact ⟨task, findTask_mem s.tasks tid task hf, hcr⟩
  · intro x hx
    rcases memEdit x hx with h | ⟨task, hf, hcr, _⟩
    · exact ⟨x, h, rfl⟩
    · exact ⟨task, findTask_mem s.tasks tid task hf, hcr⟩

/-- Witness for C9 at the concrete store with request time 9. -/
theorem task_timestamps_invariant_witness :
    taskTimesOK (update_task_status exStore 2 10 (some "completed") 9).1 ∧
    taskTimesOK (edit_task exStore 2 10 "E" "ed" "IT" "low" 3 none
        (fun _ => none) 9).1 ∧
    taskTimesOK (new_task exStore 2 "E" "ed" "IT" "low" (some 3) none
        (fun _ => none) 11 9).1 ∧
    (∀ x ∈ (new_task exStore 2 "E" "ed" "IT" "low" (some 3) none
        (fun _ => none) 11 9).1.tasks,
      x ∈ exStore.tasks ∨ (x.created_at = 9 ∧ x.updated_at = 9)) ∧
    (∀ x ∈ (update_task_status exStore 2 10 (some "completed") 9).1.tasks,
      ∃ t0 ∈ exStore.tasks, x.created_at = t0.created_at) ∧
    (∀ x ∈ (edit_task exStore 2 10 "E" "ed" "IT" "low" 3 none
        (fun _ => none) 9).1.tasks,
      ∃ t0 ∈ exStore.tasks, x.created_at = t0.created_at) :=
  task_timestamps_invariant exStore 9 2 10 11 3 (some "completed")
    "E" "ed" "IT" "low" (some 3) none (fun _ => none)
    (by decide) (by decide)

end SmartTask
